import Mathlib

/-!
Verification development for the AI social-media agent pipeline
(backend modules brand_analyzer.py, post_generator.py, feedback_loop.py,
image_generator.py and the orchestrating SocialMediaAgent in app.py).

Python dictionaries are embedded as ordered association lists of
JSON-like values.  Each external chat-completion request, together with
the fenced-or-raw JSON parse that immediately follows it inside the same
`try` block in the source, is abstracted as an input of type `LlmParse`:
`raised` covers any exception inside that `try` block (network error,
non-2xx status, json.loads failure), while `parsed v` means json.loads
succeeded and produced the value `v`.  Deterministic Python code that
runs outside those `try` blocks (prompt construction, dict subscripts,
metadata attachment, file naming) is translated directly.
-/

/-- JSON-like values: the codomain of the Python dict entries the
pipeline manipulates (captions, scores, hashtag lists, nested brand
profile groups, None). -/
inductive JVal where
  | jstr (s : String)
  | jnum (q : Rat)
  | jbool (b : Bool)
  | jnull
  | jarr (xs : List JVal)
  | jobj (fields : List (String × JVal))
deriving Repr

mutual
/-- Boolean structural equality on JSON-like values (Python `==` on the
payloads the pipeline compares), mutually recursive with equality on
array elements and on object fields. -/
def JVal.beq : JVal → JVal → Bool
  | .jstr a, .jstr b => a == b
  | .jnum a, .jnum b => a == b
  | .jbool a, .jbool b => a == b
  | .jnull, .jnull => true
  | .jarr xs, .jarr ys => JVal.beqArr xs ys
  | .jobj xs, .jobj ys => JVal.beqObj xs ys
  | _, _ => false
def JVal.beqArr : List JVal → List JVal → Bool
  | [], [] => true
  | x :: xs, y :: ys => JVal.beq x y && JVal.beqArr xs ys
  | _, _ => false
def JVal.beqObj : List (String × JVal) → List (String × JVal) → Bool
  | [], [] => true
  | (k, x) :: xs, (k', y) :: ys => k == k' && JVal.beq x y && JVal.beqObj xs ys
  | _, _ => false
end

mutual
theorem JVal.beq_refl : ∀ a : JVal, JVal.beq a a = true
  | .jstr _ => by simp [JVal.beq]
  | .jnum _ => by simp [JVal.beq]
  | .jbool _ => by simp [JVal.beq]
  | .jnull => by simp [JVal.beq]
  | .jarr xs => by simp [JVal.beq, JVal.beqArr_refl xs]
  | .jobj xs => by simp [JVal.beq, JVal.beqObj_refl xs]
theorem JVal.beqArr_refl : ∀ xs : List JVal, JVal.beqArr xs xs = true
  | [] => by simp [JVal.beqArr]
  | x :: xs => by simp [JVal.beqArr, JVal.beq_refl x, JVal.beqArr_refl xs]
theorem JVal.beqObj_refl : ∀ xs : List (String × JVal), JVal.beqObj xs xs = true
  | [] => by simp [JVal.beqObj]
  | (k, x) :: xs => by simp [JVal.beqObj, JVal.beq_refl x, JVal.beqObj_refl xs]
end

mutual
theorem JVal.beq_sound : ∀ a b : JVal, JVal.beq a b = true → a = b
  | .jstr a, .jstr b => by simp [JVal.beq]
  | .jnum a, .jnum b => by simp [JVal.beq]
  | .jbool a, .jbool b => by simp [JVal.beq]
  | .jnull, .jnull => by simp
  | .jarr xs, .jarr ys => by
      simp only [JVal.beq]
      intro h
      rw [JVal.beqArr_sound xs ys h]
  | .jobj xs, .jobj ys => by
      simp only [JVal.beq]
      intro h
      rw [JVal.beqObj_sound xs ys h]
  | .jstr _, .jnum _ => by simp [JVal.beq]
  | .jstr _, .jbool _ => by simp [JVal.beq]
  | .jstr _, .jnull => by simp [JVal.beq]
  | .jstr _, .jarr _ => by simp [JVal.beq]
  | .jstr _, .jobj _ => by simp [JVal.beq]
  | .jnum _, .jstr _ => by simp [JVal.beq]
  | .jnum _, .jbool _ => by simp [JVal.beq]
  | .jnum _, .jnull => by simp [JVal.beq]
  | .jnum _, .jarr _ => by simp [JVal.beq]
  | .jnum _, .jobj _ => by simp [JVal.beq]
  | .jbool _, .jstr _ => by simp [JVal.beq]
  | .jbool _, .jnum _ => by simp [JVal.beq]
  | .jbool _, .jnull => by simp [JVal.beq]
  | .jbool _, .jarr _ => by simp [JVal.beq]
  | .jbool _, .jobj _ => by simp [JVal.beq]
  | .jnull, .jstr _ => by simp [JVal.beq]
  | .jnull, .jnum _ => by simp [JVal.beq]
  | .jnull, .jbool _ => by simp [JVal.beq]
  | .jnull, .jarr _ => by simp [JVal.beq]
  | .jnull, .jobj _ => by simp [JVal.beq]
  | .jarr _, .jstr _ => by simp [JVal.beq]
  | .jarr _, .jnum _ => by simp [JVal.beq]
  | .jarr _, .jbool _ => by simp [JVal.beq]
  | .jarr _, .jnull => by simp [JVal.beq]
  | .jarr _, .jobj _ => by simp [JVal.beq]
  | .jobj _, .jstr _ => by simp [JVal.beq]
  | .jobj _, .jnum _ => by simp [JVal.beq]
  | .jobj _, .jbool _ => by simp [JVal.beq]
  | .jobj _, .jnull => by simp [JVal.beq]
  | .jobj _, .jarr _ => by simp [JVal.beq]
theorem JVal.beqArr_sound : ∀ xs ys : List JVal, JVal.beqArr xs ys = true → xs = ys
  | [], [] => by simp
  | x :: xs, y :: ys => by
      simp only [JVal.beqArr, Bool.and_eq_true]
      rintro ⟨h1, h2⟩
      rw [JVal.beq_sound x y h1, JVal.beqArr_sound xs ys h2]
  | [], _ :: _ => by simp [JVal.beqArr]
  | _ :: _, [] => by simp [JVal.beqArr]
theorem JVal.beqObj_sound :
    ∀ xs ys : List (String × JVal), JVal.beqObj xs ys = true → xs = ys
  | [], [] => by simp
  | (k, x) :: xs, (k', y) :: ys => by
      simp only [JVal.beqObj, Bool.and_eq_true, beq_iff_eq]
      rintro ⟨⟨h0, h1⟩, h2⟩
      rw [h0, JVal.beq_sound x y h1, JVal.beqObj_sound xs ys h2]
  | [], _ :: _ => by simp [JVal.beqObj]
  | _ :: _, [] => by simp [JVal.beqObj]
end

theorem JVal.beq_iff (a b : JVal) : JVal.beq a b = true ↔ a = b :=
  ⟨JVal.beq_sound a b, fun h => h ▸ JVal.beq_refl a⟩

instance : DecidableEq JVal := fun a b => decidable_of_iff _ (JVal.beq_iff a b)

/-- A Python dict with string keys, as an ordered association list. -/
abbrev Obj := List (String × JVal)

/-- Lookup of a key in a dict (Python `d[k]` when the key is present). -/
def getKey : Obj → String → Option JVal
  | [], _ => none
  | (k', v') :: rest, k => if k' = k then some v' else getKey rest k

/-- Python `d[k] = v`: replace the binding of `k` in place, else append. -/
def setKey : Obj → String → JVal → Obj
  | [], k, v => [(k, v)]
  | (k', v') :: rest, k, v =>
      if k' = k then (k, v) :: rest else (k', v') :: setKey rest k v

/-- Python `d.get(k)` (absent keys yield None). -/
def pyGet (d : Obj) (k : String) : JVal := (getKey d k).getD .jnull

/-- Python `d.get(k, dflt)`. -/
def pyGetD (d : Obj) (k : String) (dflt : JVal) : JVal := (getKey d k).getD dflt

/-- Python truthiness test `not x` (negated): None, False, 0, empty
string, empty list and empty dict are falsy. -/
def pyFalsy : JVal → Bool
  | .jnull => true
  | .jbool b => !b
  | .jnum q => q == 0
  | .jstr s => s == ""
  | .jarr xs => xs.isEmpty
  | .jobj fs => fs.isEmpty

/-- Python exceptions that the embedded code can raise. -/
inductive PyErr where
  | valueError (msg : String)
  | keyError (k : String)
  | typeError (msg : String)
  | attributeError (missing : String)
deriving DecidableEq, Repr

/-- Outcome of one chat-completion request together with the
fenced-or-raw JSON parse that follows it inside the same `try` block:
`raised` is any exception in that block (request error, non-2xx,
json.loads failure), `parsed v` is a successful json.loads yielding
`v`.  The source performs no schema validation after the parse. -/
inductive LlmParse where
  | raised
  | parsed (v : JVal)
deriving DecidableEq, Repr

/-- Outcome of the local text-overlay rendering in add_text_overlay:
`ok ts` means every step (open, font load, draw, save) succeeded and the
result was saved under timestamp `ts`; `failed` is any exception inside
the function's `try` block. -/
inductive OvOutcome where
  | ok (ts : String)
  | failed
deriving DecidableEq, Repr

/-- The fixed fallback profile returned by
BrandAnalyzer._default_brand_profile (brand_analyzer.py lines 181-219),
translated field by field. -/
def default_brand_profile : JVal :=
  .jobj [
    ("brand_voice", .jobj [
      ("tone", .jstr "professional"),
      ("personality_traits", .jarr [.jstr "innovative", .jstr "reliable",
        .jstr "forward-thinking"]),
      ("emoji_usage", .jstr "moderate"),
      ("sentence_style", .jstr "medium"),
      ("language_complexity", .jstr "moderate")]),
    ("visual_identity", .jobj [
      ("primary_colors", .jarr [.jstr "#1a73e8", .jstr "#34a853"]),
      ("design_style", .jstr "modern"),
      ("imagery_style", .jstr "photographic")]),
    ("messaging_patterns", .jobj [
      ("key_themes", .jarr [.jstr "innovation", .jstr "technology",
        .jstr "growth"]),
      ("value_propositions", .jarr [.jstr "cutting-edge solutions",
        .jstr "reliable service"]),
      ("target_audience", .jstr "tech-savvy professionals"),
      ("common_topics", .jarr [.jstr "AI", .jstr "technology",
        .jstr "business"])]),
    ("cta_style", .jobj [
      ("typical_ctas", .jarr [.jstr "Learn more", .jstr "Get started",
        .jstr "Join us"]),
      ("cta_placement", .jstr "end"),
      ("cta_tone", .jstr "professional")]),
    ("content_structure", .jobj [
      ("typical_post_length", .jstr "medium"),
      ("uses_hashtags", .jbool true),
      ("hashtag_count", .jstr "3-5"),
      ("uses_questions", .jbool true),
      ("uses_statistics", .jbool false)])]

/-- BrandAnalyzer.analyze (brand_analyzer.py lines 69-179).  The three
optional sources only shape the prompt text (a failed website fetch is
degraded to empty text inside scrape_website's own `try`), so they
cannot raise here.  The whole request-and-parse sequence sits in one
`try` whose handler returns the fixed default profile; a successfully
parsed value is returned as-is, with no schema check. -/
def analyze (_website_url : Option String) (_existing_posts : Option (List String))
    (_brand_guidelines : Option Obj) (llm : LlmParse) : JVal :=
  match llm with
  | .raised => default_brand_profile
  | .parsed v => v

/-- Python subscript `v[k]` on a JSON value: KeyError when the key is
missing from a dict, TypeError when `v` is not a dict. -/
def subscriptJ (v : JVal) (k : String) : Except PyErr JVal :=
  match v with
  | .jobj fs =>
      match getKey fs k with
      | some x => .ok x
      | none => .error (.keyError k)
  | _ => .error (.typeError "object is not subscriptable")

/-- Whether a JSON value is a string. -/
def isJStr : JVal → Bool
  | .jstr _ => true
  | _ => false

/-- Whether Python `', '.join(x[:3])` succeeds on `x`: a string slices
and joins (character by character), a list joins when its first three
elements are strings, anything else raises TypeError. -/
def joinSlice3 : JVal → Bool
  | .jstr _ => true
  | .jarr xs => (xs.take 3).all isJStr
  | _ => false

/-- The dict accesses PostGenerator._build_generation_prompt performs
before the API `try` block (post_generator.py lines 109-134): tone and
emoji_usage from brand_voice, the joined slice of
cta_style.typical_ctas, then messaging_patterns inside the f-string.
Any of them can raise, and such an exception escapes
generate_variations because the prompt is built before its `try`. -/
def gen_prompt_check (brand_profile : JVal) : Except PyErr Unit := do
  let bv ← subscriptJ brand_profile "brand_voice"
  let _ ← subscriptJ bv "tone"
  let _ ← subscriptJ bv "emoji_usage"
  let cs ← subscriptJ brand_profile "cta_style"
  let ctas ← subscriptJ cs "typical_ctas"
  if joinSlice3 ctas then do
    let _ ← subscriptJ brand_profile "messaging_patterns"
    pure ()
  else
    Except.error (.typeError "can only join strings")

/-- Interpret a parsed JSON list as a list of dicts; `none` when some
element is not a dict (in the source, assigning a key on such an
element raises TypeError inside the `try`, so the call returns []). -/
def asObjList : List JVal → Option (List Obj)
  | [] => some []
  | .jobj o :: rest =>
      match asObjList rest with
      | some os => some (o :: os)
      | none => none
  | _ => none

/-- The metadata-attachment loop of generate_variations
(post_generator.py lines 81-84): starting at enumerate index `i`, set
platform, intent and the 1-based variation_number on every dict. -/
def attachMetaFrom (platform intent : String) (i : Nat) : List Obj → List Obj
  | [] => []
  | o :: rest =>
      setKey (setKey (setKey o "platform" (.jstr platform))
          "intent" (.jstr intent))
          "variation_number" (.jnum ((i + 1 : Nat) : Rat))
        :: attachMetaFrom platform intent (i + 1) rest

/-- The metadata-attachment loop started at index 0. -/
def attachMeta (platform intent : String) (objs : List Obj) : List Obj :=
  attachMetaFrom platform intent 0 objs

/-- PostGenerator.generate_variations (post_generator.py lines 26-90).
The prompt is built before the `try` (so a malformed profile raises out
of the function); inside the `try`, any request/parse exception, a
missing or non-list 'posts' entry, or a non-dict element all end in the
handler, which returns []; otherwise the parsed dicts are returned with
platform, intent and variation_number attached.  The requested
num_variations only appears in the prompt text. -/
def generate_variations (brand_profile : JVal) (intent platform : String)
    (_constraints _rag_elements : Option Obj) (num_variations : Nat)
    (llm : LlmParse) : Except PyErr (List Obj) :=
  match gen_prompt_check brand_profile with
  | .error e => .error e
  | .ok _ =>
      .ok (match llm with
        | .raised => []
        | .parsed (.jobj fs) =>
            match getKey fs "posts" with
            | some (.jarr posts) =>
                match asObjList posts with
                | some objs => attachMeta platform intent objs
                | none => []
            | _ => []
        | .parsed _ => [])

/-- PostGenerator.refine_with_feedback (post_generator.py lines
211-279).  The prompt (json.dumps of the post, the profile and the
verbatim feedback) cannot raise; the whole request, parse and
metadata-attachment sequence sits in one `try` whose handler returns
the original post_data.  On a parsed dict, platform and intent are
overwritten with the original post's values; a parsed non-dict raises
TypeError at the assignment, landing in the same handler. -/
def refine_with_feedback (post_data : Obj) (_user_feedback : String)
    (_brand_profile : JVal) (llm : LlmParse) : Obj :=
  match llm with
  | .raised => post_data
  | .parsed (.jobj d) =>
      setKey (setKey d "platform" (pyGet post_data "platform"))
        "intent" (pyGet post_data "intent")
  | .parsed _ => post_data

/-- The fixed neutral critique returned by FeedbackLoop._default_critique
(feedback_loop.py lines 237-258). -/
def default_critique : Obj :=
  [("scores", .jobj [
      ("brand_consistency", .jnum 7),
      ("message_clarity", .jnum 7),
      ("cta_effectiveness", .jnum 7),
      ("text_readability", .jnum 7),
      ("platform_appropriateness", .jnum 7),
      ("engagement_potential", .jnum 7)]),
   ("overall_score", .jnum 7),
   ("strengths", .jarr [.jstr "Clear message"]),
   ("weaknesses", .jarr [.jstr "Could be more engaging"]),
   ("specific_improvements", .jarr [.jstr "Enhance the hook",
     .jstr "Strengthen the CTA"]),
   ("priority_fix", .jstr "Make the opening more attention-grabbing")]

/-- FeedbackLoop._critique_post (feedback_loop.py lines 52-157): the
prompt (built from .get accesses on the post dict) cannot raise; any
request/parse exception yields the fixed default critique, and a parsed
value is returned without validation. -/
def critique_post (_post : Obj) (_brand_profile : JVal) (_platform : String)
    (llm : LlmParse) : JVal :=
  match llm with
  | .raised => .jobj default_critique
  | .parsed v => v

/-- Whether Python `', '.join(x)` succeeds on `x`: a string (joins its
characters), a list of strings, or a dict (iterating a dict yields its
string keys, so the join succeeds); other values raise TypeError. -/
def joinList : JVal → Bool
  | .jstr _ => true
  | .jarr xs => xs.all isJStr
  | .jobj _ => true
  | _ => false

/-- Whether Python iteration `for imp in x` with an f-string body
succeeds on `x`: strings, lists and dicts are iterable, other values
raise TypeError. -/
def pyIterable : JVal → Bool
  | .jstr _ => true
  | .jarr _ => true
  | .jobj _ => true
  | _ => false

/-- Whether the improvement prompt of FeedbackLoop._improve_post
(feedback_loop.py lines 172-203) builds without raising on a dict
critique: the weaknesses join and the specific_improvements iteration
must succeed (overall_score and priority_fix are f-string formatted and
never raise). -/
def improve_prompt_ok (c : Obj) : Bool :=
  joinList (pyGetD c "weaknesses" (.jarr []))
    && pyIterable (pyGetD c "specific_improvements" (.jarr []))

/-- The metadata re-attachment of FeedbackLoop._improve_post on a
parsed dict `improved` (feedback_loop.py lines 226-229): platform,
intent and variation_number are copied from the pre-improvement post
and critique_score is set to the critique's overall_score. -/
def attach_improvement (post : Obj) (c improved : Obj) : Obj :=
  setKey (setKey (setKey (setKey improved
    "platform" (pyGet post "platform"))
    "intent" (pyGet post "intent"))
    "variation_number" (pyGet post "variation_number"))
    "critique_score" (pyGet c "overall_score")

/-- FeedbackLoop._improve_post (feedback_loop.py lines 159-235).  The
improvement prompt is an f-string built at lines 172-203, before the
`try` at line 205, so its exceptions propagate out of _improve_post
(and out of iterate, which catches nothing): critique.get on a
non-dict critique raises AttributeError, and an unjoinable weaknesses
entry or a non-iterable specific_improvements entry raises TypeError
there.  When the prompt builds, the request, parse and metadata
re-attachment sit in the `try` whose handler returns the
pre-improvement post: a request/parse failure or a parsed non-dict
(key assignment raises TypeError) yields the unchanged post, and a
parsed dict gets the original metadata re-attached. -/
def improve_post (post : Obj) (critique : JVal) (_brand_profile : JVal)
    (_platform : String) (llm : LlmParse) : Except PyErr Obj :=
  match critique with
  | .jobj c =>
      if improve_prompt_ok c then
        .ok (match llm with
          | .raised => post
          | .parsed (.jobj d) => attach_improvement post c d
          | .parsed _ => post)
      else .error (.typeError "improvement prompt interpolation raised")
  | _ => .error (.attributeError "get")

/-- Whether the critique produced by _critique_post for this request
outcome lets the next improvement prompt build without raising: the
fixed default critique always does; a parsed critique must be a dict
whose weaknesses entry joins and whose specific_improvements entry
iterates. -/
def critique_prompt_safe : LlmParse → Bool
  | .raised => true
  | .parsed (.jobj c) => improve_prompt_ok c
  | .parsed _ => false

/-- The loop body of FeedbackLoop.iterate from enumerate index `i` with
`r` rounds remaining: critique the current post, improve on the
critique; an exception raised while building the improvement prompt
aborts the whole loop (nothing catches it), otherwise the round's
result feeds the next round. -/
def iterate_from (brand_profile : JVal) (platform : String)
    (oracle : Nat → LlmParse × LlmParse) : Nat → Nat → Obj → Except PyErr Obj
  | _, 0, current => .ok current
  | i, r + 1, current =>
      match improve_post current
          (critique_post current brand_profile platform (oracle i).1)
          brand_profile platform (oracle i).2 with
      | .error e => .error e
      | .ok next => iterate_from brand_profile platform oracle (i + 1) r next

/-- FeedbackLoop.iterate (feedback_loop.py lines 26-50): starting from
a copy of the input post, run `iterations` rounds of critique followed
by improve.  The per-round request outcomes are supplied by `oracle`
(first component: the critique request, second: the improve request);
with `iterations = 0` the loop body never runs and no request is
issued.  An exception raised inside a round (the improvement-prompt
construction, feedback_loop.py lines 172-203) propagates to the
caller. -/
def iterate (post : Obj) (brand_profile : JVal) (platform : String)
    (iterations : Nat) (oracle : Nat → LlmParse × LlmParse) :
    Except PyErr Obj :=
  iterate_from brand_profile platform oracle 0 iterations post

/-- ImageGenerator._get_image_dimensions (image_generator.py lines
126-142): dict lookup with the square preset as default. -/
def image_dimensions (platform : JVal) : String :=
  if platform = .jstr "linkedin" then "1792x1024"
  else if platform = .jstr "instagram" then "1024x1024"
  else "1024x1024"

/-- Directory ImageGenerator writes generated images into. -/
def output_images_dir : String := "data/generated_images"

/-- ImageGenerator.generate_background (image_generator.py lines
32-81).  Lines 45-48 run before the `try`: after the dimension lookup,
_build_dalle_prompt subscripts brand_profile with 'visual_identity',
calls .get on the result, and then calls self._hex_to_color_names
(line 97) — a method that is not defined anywhere in the class — so
every call raises before any DALL-E request is made.  The `try` block
is never entered, and its handler (line 81) could not run either: it
calls self._create_placeholder_image, which is also undefined.  The
function therefore never returns an image path. -/
def generate_background (_post_data : Obj) (brand_profile : JVal)
    (platform : JVal) : Except PyErr (String × List String) :=
  let _dims := image_dimensions platform
  match brand_profile with
  | .jobj fs =>
      match getKey fs "visual_identity" with
      | some (.jobj _) => .error (.attributeError "_hex_to_color_names")
      | some _ => .error (.attributeError "get")
      | none => .error (.keyError "visual_identity")
  | _ => .error (.typeError "object is not subscriptable")

/-- ImageGenerator.add_text_overlay (image_generator.py lines 144-212).
The whole body (open, font fallback chain, draw, save) sits in one
`try`; on success a new file final_<timestamp>.png is written and its
path returned, on any exception the input image path is returned
unchanged and no file is written.  The second component records the
files the call created. -/
def add_text_overlay (image_path : String) (_text : JVal)
    (_brand_profile : JVal) (render : OvOutcome) : String × List String :=
  match render with
  | .ok ts =>
      let filepath := output_images_dir ++ "/final_" ++ ts ++ ".png"
      (filepath, [filepath])
  | .failed => (image_path, [])

/-- The per-post image stage of SocialMediaAgent.generate_post (app.py
lines 104-123): generate a background, overlay the post's overlay_text,
and attach the resulting path as image_path.  The second component
records the files created.  An exception in generate_background
propagates (nothing in app.py catches it). -/
def post_image_step (post : Obj) (brand_profile : JVal) (platform : String)
    (render : OvOutcome) : Except PyErr (Obj × List String) :=
  match generate_background post brand_profile (.jstr platform) with
  | .error e => .error e
  | .ok (image_path, created) =>
      let r := add_text_overlay image_path (pyGetD post "overlay_text" (.jstr ""))
        brand_profile render
      .ok (setKey post "image_path" (.jstr r.1), created ++ r.2)

/-- SocialMediaAgent.generate_post (app.py lines 61-126): raise
ValueError when the stored brand profile is falsy, then generate 3
variations, run 2 feedback rounds on each (round outcomes supplied per
variation index by `fb`), then the image stage on each (overlay
outcomes supplied by `render`).  Nothing here catches exceptions, so a
crash inside a feedback round or the image stage propagates. -/
def generate_post (brand_profile : JVal) (intent platform : String)
    (constraints rag_elements : Option Obj) (gvar : LlmParse)
    (fb : Nat → Nat → LlmParse × LlmParse) (render : Nat → OvOutcome) :
    Except PyErr (List Obj) :=
  if pyFalsy brand_profile then
    .error (.valueError "Brand profile not set. Run analyze_brand() first!")
  else
    match generate_variations brand_profile intent platform constraints
        rag_elements 3 gvar with
    | .error e => .error e
    | .ok initial_posts =>
        match initial_posts.enum.mapM
            (fun p => iterate p.2 brand_profile platform 2 (fb p.1)) with
        | .error e => .error e
        | .ok improved =>
            improved.enum.mapM
              (fun p => (post_image_step p.2 brand_profile platform
                (render p.1)).map Prod.fst)

/-- SocialMediaAgent.refine_post (app.py lines 128-166).  There is no
check that the brand profile is set: the stored profile (possibly None)
is passed straight to refine_with_feedback.  Images are regenerated
only when the refined caption differs from the original caption
(.get comparison); the second component records the files created. -/
def refine_post (brand_profile : JVal) (post_data : Obj)
    (user_feedback : String) (llm : LlmParse) (render : OvOutcome) :
    Except PyErr (Obj × List String) :=
  let refined_post := refine_with_feedback post_data user_feedback brand_profile llm
  if pyGet refined_post "caption" ≠ pyGet post_data "caption" then
    match generate_background refined_post brand_profile
        (pyGetD post_data "platform" (.jstr "linkedin")) with
    | .error e => .error e
    | .ok (image_path, created) =>
        let r := add_text_overlay image_path
          (pyGetD refined_post "overlay_text" (.jstr "")) brand_profile render
        .ok (setKey refined_post "image_path" (.jstr r.1), created ++ r.2)
  else
    .ok (refined_post, [])

/-- Content of a file save_post writes: the plain-text caption file or
the JSON metadata file. -/
inductive FileContent where
  | text (s : String)
  | jsonFile (v : JVal)
deriving DecidableEq, Repr

/-- SocialMediaAgent.save_post (app.py lines 168-203).  The caption
file is opened (hence created) before `post_data['caption']` is
evaluated, so a missing caption leaves an empty caption file and raises
KeyError before the metadata file is written; a non-string caption
makes f.write raise TypeError at the same point.  On success both files
share the timestamp-derived base name post_<timestamp>, the metadata
uses .get for platform and intent (None when absent) and an empty
string default for overlay_text.  The first component lists the files
written with their contents, the second is the return value or the
exception. -/
def save_post (post_data : Obj) (output_dir timestamp : String) :
    List (String × FileContent) × Except PyErr String :=
  let base_filename := "post_" ++ timestamp
  let caption_path := output_dir ++ "/" ++ base_filename ++ "_caption.txt"
  match getKey post_data "caption" with
  | none => ([(caption_path, .text "")], .error (.keyError "caption"))
  | some (.jstr caption) =>
      let metadata_path := output_dir ++ "/" ++ base_filename ++ "_metadata.json"
      ([(caption_path, .text caption),
        (metadata_path, .jsonFile (.jobj [
          ("platform", pyGet post_data "platform"),
          ("intent", pyGet post_data "intent"),
          ("timestamp", .jstr timestamp),
          ("caption", .jstr caption),
          ("overlay_text", pyGetD post_data "overlay_text" (.jstr ""))]))],
       .ok output_dir)
  | some _ => ([(caption_path, .text "")],
      .error (.typeError "write argument must be str"))

theorem getKey_setKey_self (d : Obj) (k : String) (v : JVal) :
    getKey (setKey d k v) k = some v := by
  induction d with
  | nil => simp [setKey, getKey]
  | cons hd tl ih =>
      obtain ⟨k', v'⟩ := hd
      by_cases h : k' = k
      · simp [setKey, h, getKey]
      · simp [setKey, h, getKey, ih]

theorem getKey_setKey_of_ne (d : Obj) {k k' : String} (h : k' ≠ k) (v : JVal) :
    getKey (setKey d k' v) k = getKey d k := by
  induction d with
  | nil => simp [setKey, getKey, h]
  | cons hd tl ih =>
      obtain ⟨k0, v0⟩ := hd
      by_cases h0 : k0 = k'
      · simp [setKey, h0, getKey, h]
      · by_cases h1 : k0 = k
        · subst h1
          simp [setKey, getKey, h0]
        · simp [setKey, h0, getKey, h1, ih]

theorem pyGet_setKey_self (d : Obj) (k : String) (v : JVal) :
    pyGet (setKey d k v) k = v := by
  simp [pyGet, getKey_setKey_self]

theorem pyGet_setKey_of_ne (d : Obj) {k k' : String} (h : k' ≠ k) (v : JVal) :
    pyGet (setKey d k' v) k = pyGet d k := by
  simp [pyGet, getKey_setKey_of_ne d h]

theorem improve_post_ok_preserves (post : Obj) (critique bp : JVal)
    (pf : String) (llm : LlmParse) (q : Obj) (key : String)
    (hkey : key = "platform" ∨ key = "intent")
    (h : improve_post post critique bp pf llm = .ok q) :
    pyGet q key = pyGet post key := by
  cases critique with
  | jstr s => exact Except.noConfusion h
  | jnum n => exact Except.noConfusion h
  | jbool b => exact Except.noConfusion h
  | jnull => exact Except.noConfusion h
  | jarr xs => exact Except.noConfusion h
  | jobj c =>
      by_cases hok : improve_prompt_ok c = true
      · simp only [improve_post] at h
        rw [if_pos hok] at h
        injection h with h
        subst h
        cases llm with
        | raised => rfl
        | parsed v =>
            cases v with
            | jobj d =>
                show pyGet (attach_improvement post c d) key = pyGet post key
                rcases hkey with rfl | rfl
                · unfold attach_improvement
                  rw [pyGet_setKey_of_ne _ (by decide),
                    pyGet_setKey_of_ne _ (by decide),
                    pyGet_setKey_of_ne _ (by decide), pyGet_setKey_self]
                · unfold attach_improvement
                  rw [pyGet_setKey_of_ne _ (by decide),
                    pyGet_setKey_of_ne _ (by decide), pyGet_setKey_self]
            | jstr s => rfl
            | jnum n => rfl
            | jbool b => rfl
            | jnull => rfl
            | jarr xs => rfl
      · simp only [improve_post] at h
        rw [if_neg hok] at h
        exact Except.noConfusion h

theorem iterate_from_ok_preserves (bp : JVal) (pf : String)
    (oracle : Nat → LlmParse × LlmParse) (key : String)
    (hkey : key = "platform" ∨ key = "intent") :
    ∀ (r i : Nat) (cur q : Obj),
      iterate_from bp pf oracle i r cur = .ok q → pyGet q key = pyGet cur key
  | 0, i, cur, q => by
      intro h
      injection h with h
      rw [← h]
  | r + 1, i, cur, q => by
      intro h
      rw [show iterate_from bp pf oracle i (r + 1) cur
          = (match improve_post cur (critique_post cur bp pf (oracle i).1)
                bp pf (oracle i).2 with
             | .error e => Except.error e
             | .ok next => iterate_from bp pf oracle (i + 1) r next) from rfl] at h
      cases himp : improve_post cur (critique_post cur bp pf (oracle i).1)
          bp pf (oracle i).2 with
      | error e =>
          rw [himp] at h
          exact Except.noConfusion h
      | ok next =>
          rw [himp] at h
          have hrec := iterate_from_ok_preserves bp pf oracle key hkey r (i + 1)
            next q h
          have hstep := improve_post_ok_preserves cur
            (critique_post cur bp pf (oracle i).1) bp pf (oracle i).2 next key
            hkey himp
          rw [hrec, hstep]

theorem improve_post_raised_of_safe (post : Obj) (bp : JVal) (pf : String)
    (co : LlmParse) (hc : critique_prompt_safe co = true) :
    improve_post post (critique_post post bp pf co) bp pf .raised = .ok post := by
  cases co with
  | raised => rfl
  | parsed v =>
      cases v with
      | jobj c2 =>
          have h2 : improve_prompt_ok c2 = true := hc
          simp [critique_post, improve_post, h2]
      | jstr s => exact absurd hc (by simp [critique_prompt_safe])
      | jnum n => exact absurd hc (by simp [critique_prompt_safe])
      | jbool b => exact absurd hc (by simp [critique_prompt_safe])
      | jnull => exact absurd hc (by simp [critique_prompt_safe])
      | jarr xs => exact absurd hc (by simp [critique_prompt_safe])

theorem attachMetaFrom_length (platform intent : String) :
    ∀ (i : Nat) (l : List Obj),
      (attachMetaFrom platform intent i l).length = l.length
  | _, [] => rfl
  | i, _ :: l => by
      simp [attachMetaFrom, attachMetaFrom_length platform intent (i + 1) l]

theorem attachMetaFrom_get_keys (platform intent : String) :
    ∀ (i : Nat) (l : List Obj) (j : Nat)
      (h : j < (attachMetaFrom platform intent i l).length),
      getKey ((attachMetaFrom platform intent i l).get ⟨j, h⟩) "platform"
          = some (.jstr platform)
      ∧ getKey ((attachMetaFrom platform intent i l).get ⟨j, h⟩) "intent"
          = some (.jstr intent)
      ∧ getKey ((attachMetaFrom platform intent i l).get ⟨j, h⟩) "variation_number"
          = some (.jnum ((i + j + 1 : Nat) : Rat)) := by
  intro i l
  induction l generalizing i with
  | nil => intro j h; simp [attachMetaFrom] at h
  | cons o l ih =>
      intro j h
      cases j with
      | zero =>
          refine ⟨?_, ?_, ?_⟩
          · show getKey (setKey (setKey (setKey o "platform" (.jstr platform))
              "intent" (.jstr intent)) "variation_number"
              (.jnum ((i + 1 : Nat) : Rat))) "platform" = some (.jstr platform)
            rw [getKey_setKey_of_ne _ (by decide), getKey_setKey_of_ne _ (by decide),
              getKey_setKey_self]
          · show getKey (setKey (setKey (setKey o "platform" (.jstr platform))
              "intent" (.jstr intent)) "variation_number"
              (.jnum ((i + 1 : Nat) : Rat))) "intent" = some (.jstr intent)
            rw [getKey_setKey_of_ne _ (by decide), getKey_setKey_self]
          · show getKey (setKey (setKey (setKey o "platform" (.jstr platform))
              "intent" (.jstr intent)) "variation_number"
              (.jnum ((i + 1 : Nat) : Rat))) "variation_number"
              = some (.jnum ((i + 0 + 1 : Nat) : Rat))
            rw [getKey_setKey_self]
      | succ j =>
          have h2 : j < (attachMetaFrom platform intent (i + 1) l).length := by
            simpa [attachMetaFrom] using h
          have := ih (i + 1) j h2
          have harith : i + 1 + j + 1 = i + (j + 1) + 1 := by omega
          simpa [attachMetaFrom, harith] using this

theorem asObjList_length :
    ∀ (posts : List JVal) (objs : List Obj),
      asObjList posts = some objs → objs.length = posts.length
  | [], objs => by
      intro h
      simp only [asObjList, Option.some.injEq] at h
      rw [← h]
      rfl
  | .jobj o :: rest, objs => by
      simp only [asObjList]
      cases hr : asObjList rest with
      | none => simp
      | some os =>
          intro h
          have := asObjList_length rest os hr
          simp at h
          simp [← h, this]
  | .jstr _ :: _, _ => by simp [asObjList]
  | .jnum _ :: _, _ => by simp [asObjList]
  | .jbool _ :: _, _ => by simp [asObjList]
  | .jnull :: _, _ => by simp [asObjList]
  | .jarr _ :: _, _ => by simp [asObjList]

/-- C3, counterexample: the claim also covers schema mismatches, but
analyze performs no schema validation — a response that parses as JSON
with the wrong shape (here the empty object) is returned as-is and is
not the fixed default profile. -/
theorem c3_counterexample :
    analyze none none none (.parsed (.jobj [])) = .jobj []
    ∧ JVal.jobj [] ≠ default_brand_profile :=
  ⟨rfl, by decide⟩

/-- C3, amended: any exception during the analyzer request or JSON
parse (network error, non-2xx, parse failure) yields exactly the fixed
default BrandProfile, and no exception escapes analyze; but any
successfully parsed JSON value is returned unchanged, so a
schema-mismatched parse is not replaced by the default. -/
theorem c3_amended :
    (∀ (w : Option String) (p : Option (List String)) (g : Option Obj),
      analyze w p g .raised = default_brand_profile)
    ∧ (∀ (w : Option String) (p : Option (List String)) (g : Option Obj)
        (v : JVal), analyze w p g (.parsed v) = v) :=
  ⟨fun _ _ _ => rfl, fun _ _ _ _ => rfl⟩

/-- C7: if the refinement request or parse fails for any reason,
refine_with_feedback returns the input post unchanged and raises
nothing (the function is total); on a successfully parsed dict, the
returned record carries the original post's platform and intent,
overwriting whatever the model produced. -/
theorem c7_refinement_failure_and_metadata :
    (∀ (post : Obj) (fb : String) (bp : JVal),
      refine_with_feedback post fb bp .raised = post)
    ∧ (∀ (post : Obj) (fb : String) (bp : JVal) (d : Obj),
      pyGet (refine_with_feedback post fb bp (.parsed (.jobj d))) "platform"
          = pyGet post "platform"
      ∧ pyGet (refine_with_feedback post fb bp (.parsed (.jobj d))) "intent"
          = pyGet post "intent") := by
  constructor
  · intro post fb bp
    rfl
  · intro post fb bp d
    constructor
    · show pyGet (setKey (setKey d "platform" (pyGet post "platform"))
        "intent" (pyGet post "intent")) "platform" = pyGet post "platform"
      rw [pyGet_setKey_of_ne _ (by decide), pyGet_setKey_self]
    · show pyGet (setKey (setKey d "platform" (pyGet post "platform"))
        "intent" (pyGet post "intent")) "intent" = pyGet post "intent"
      rw [pyGet_setKey_self]

/-- C8: if any step of text-overlay rendering fails, add_text_overlay
returns exactly the input image path and creates no file, so the
background image is never discarded. -/
theorem c8_overlay_failure_returns_input (image_path : String) (text bp : JVal) :
    add_text_overlay image_path text bp .failed = (image_path, []) := rfl

/-- C9: FeedbackLoop.iterate with iterations = 0 returns normally with
a record equal to the input post for every brand profile, platform and
oracle — the loop body never runs, so no critique or improve request
is issued and no exception is possible (the result does not depend on
the oracle at all). -/
theorem c9_zero_iterations_identity (post : Obj) (bp : JVal) (pf : String)
    (oracle : Nat → LlmParse × LlmParse) :
    iterate post bp pf 0 oracle = .ok post := rfl

/-- C2, counterexample: with the brand profile unset (None),
refine_post raises no precondition error — here the refinement request
fails, and refine_post returns the original post normally instead of
signalling that the profile is missing. -/
theorem c2_counterexample :
    refine_post .jnull [("caption", .jstr "hello")] "make it shorter"
        .raised .failed
      = .ok ([("caption", .jstr "hello")], []) := rfl

/-- C2, amended: generate_post raises
ValueError("Brand profile not set. Run analyze_brand() first!")
immediately whenever the stored brand profile is falsy (in particular
unset), but refine_post performs no such check: with an unset profile
it proceeds to call refine_with_feedback, and (e.g. when that call
fails) returns the original post normally. -/
theorem c2_amended :
    (∀ (bp : JVal) (intent pf : String) (constraints rag : Option Obj)
        (gvar : LlmParse) (fb : Nat → Nat → LlmParse × LlmParse)
        (render : Nat → OvOutcome),
      pyFalsy bp = true →
      generate_post bp intent pf constraints rag gvar fb render
        = .error (.valueError "Brand profile not set. Run analyze_brand() first!"))
    ∧ (∀ (post : Obj) (fb : String) (render : OvOutcome),
      refine_post .jnull post fb .raised render = .ok (post, [])) := by
  constructor
  · intro bp intent pf constraints rag gvar fb render h
    simp [generate_post, h]
  · intro post fb render
    simp [refine_post, refine_with_feedback]

/-- C2, witness for the amended theorem at a concrete unset profile. -/
theorem c2_witness :
    generate_post .jnull "Announce hackathon" "linkedin" none none .raised
        (fun _ _ => (.raised, .raised)) (fun _ => .failed)
      = .error (.valueError "Brand profile not set. Run analyze_brand() first!") :=
  c2_amended.1 .jnull "Announce hackathon" "linkedin" none none .raised
    (fun _ _ => (.raised, .raised)) (fun _ => .failed) rfl

/-- C5: in a two-round feedback loop where round 1's critique request
succeeds with a dict critique whose improvement prompt builds cleanly
and round 1's improve response parses as a dict, and round 2's improve
request is actually made (its prompt builds: the critique outcome is a
failure replaced by the default critique or a parsed well-formed dict)
and fails, the loop returns round 1's post-improvement record
unchanged — the failed round is a no-op and the loop never aborts
because a request failed — and its critique_score is round 1's
overall_score. -/
theorem c5_round_two_failure_noop (post : Obj) (bp : JVal) (pf : String)
    (c i1 : Obj) (co2 : LlmParse) (hok : improve_prompt_ok c = true)
    (hc2 : critique_prompt_safe co2 = true) :
    improve_post post (.jobj c) bp pf (.parsed (.jobj i1))
      = .ok (attach_improvement post c i1)
    ∧ iterate post bp pf 2
        (fun n => match n with
          | 0 => (.parsed (.jobj c), .parsed (.jobj i1))
          | _ + 1 => (co2, .raised))
      = .ok (attach_improvement post c i1)
    ∧ getKey (attach_improvement post c i1) "critique_score"
        = some (pyGet c "overall_score") := by
  have h1 : improve_post post (.jobj c) bp pf (.parsed (.jobj i1))
      = .ok (attach_improvement post c i1) := by
    simp [improve_post, hok]
  refine ⟨h1, ?_, ?_⟩
  · rw [show iterate post bp pf 2
        (fun n => match n with
          | 0 => (.parsed (.jobj c), .parsed (.jobj i1))
          | _ + 1 => (co2, .raised))
      = (match improve_post post (.jobj c) bp pf (.parsed (.jobj i1)) with
         | .error e => Except.error e
         | .ok next => iterate_from bp pf
            (fun n => match n with
              | 0 => (.parsed (.jobj c), .parsed (.jobj i1))
              | _ + 1 => (co2, .raised)) 1 1 next) from rfl, h1]
    show iterate_from bp pf _ 1 1 (attach_improvement post c i1)
      = .ok (attach_improvement post c i1)
    rw [show iterate_from bp pf
        (fun n => match n with
          | 0 => (.parsed (.jobj c), .parsed (.jobj i1))
          | _ + 1 => (co2, .raised)) 1 1 (attach_improvement post c i1)
      = (match improve_post (attach_improvement post c i1)
            (critique_post (attach_improvement post c i1) bp pf co2)
            bp pf .raised with
         | .error e => Except.error e
         | .ok next => Except.ok next) from rfl,
      improve_post_raised_of_safe (attach_improvement post c i1) bp pf co2 hc2]
  · unfold attach_improvement
    rw [getKey_setKey_self]

/-- C5, witness: a concrete two-round run with a well-formed round-1
critique and improve response, a failed round-2 critique (replaced by
the default critique) and a failed round-2 improve request. -/
theorem c5_witness :
    iterate [("caption", .jstr "v1")] default_brand_profile "linkedin" 2
        (fun n => match n with
          | 0 => (.parsed (.jobj [("overall_score", .jnum 8),
                    ("weaknesses", .jarr [.jstr "weak hook"]),
                    ("specific_improvements", .jarr [.jstr "stronger CTA"])]),
                  .parsed (.jobj [("caption", .jstr "v2")]))
          | _ + 1 => (LlmParse.raised, LlmParse.raised))
      = .ok (attach_improvement [("caption", .jstr "v1")]
          [("overall_score", .jnum 8),
            ("weaknesses", .jarr [.jstr "weak hook"]),
            ("specific_improvements", .jarr [.jstr "stronger CTA"])]
          [("caption", .jstr "v2")]) :=
  (c5_round_two_failure_noop [("caption", .jstr "v1")] default_brand_profile
    "linkedin"
    [("overall_score", .jnum 8), ("weaknesses", .jarr [.jstr "weak hook"]),
      ("specific_improvements", .jarr [.jstr "stronger CTA"])]
    [("caption", .jstr "v2")] .raised (by decide) (by decide)).2.1

/-- C10: save_post requires the caption key — when it is absent the
caption file has been opened (created empty) but a KeyError is raised
before the metadata file is written; with a string caption present the
save succeeds whatever other keys are absent, platform and intent
default to None and overlay_text to the empty string in the metadata,
and both files share the timestamp-derived base name post_<timestamp>. -/
theorem c10_save_post_contract (p : Obj) (dir ts : String) :
    (getKey p "caption" = none →
      save_post p dir ts
        = ([(dir ++ "/" ++ ("post_" ++ ts) ++ "_caption.txt", .text "")],
           .error (.keyError "caption")))
    ∧ (∀ s, getKey p "caption" = some (.jstr s) →
      save_post p dir ts
        = ([(dir ++ "/" ++ ("post_" ++ ts) ++ "_caption.txt", .text s),
            (dir ++ "/" ++ ("post_" ++ ts) ++ "_metadata.json",
              .jsonFile (.jobj [
                ("platform", pyGet p "platform"),
                ("intent", pyGet p "intent"),
                ("timestamp", .jstr ts),
                ("caption", .jstr s),
                ("overlay_text", pyGetD p "overlay_text" (.jstr ""))]))],
           .ok dir))
    ∧ (∀ s, getKey p "caption" = some (.jstr s) → getKey p "platform" = none →
        getKey p "intent" = none → getKey p "overlay_text" = none →
      save_post p dir ts
        = ([(dir ++ "/" ++ ("post_" ++ ts) ++ "_caption.txt", .text s),
            (dir ++ "/" ++ ("post_" ++ ts) ++ "_metadata.json",
              .jsonFile (.jobj [
                ("platform", .jnull),
                ("intent", .jnull),
                ("timestamp", .jstr ts),
                ("caption", .jstr s),
                ("overlay_text", .jstr "")]))],
           .ok dir)) := by
  refine ⟨?_, ?_, ?_⟩
  · intro h
    unfold save_post
    rw [h]
  · intro s h
    unfold save_post
    rw [h]
  · intro s h hp hi ho
    unfold save_post
    rw [h]
    simp [pyGet, pyGetD, hp, hi, ho]

/-- C10, witness: saving a post with no caption key creates only the
empty caption file and raises KeyError before any metadata is written. -/
theorem c10_witness :
    save_post [] "data/generated_posts" "20250101_120000"
      = ([("data/generated_posts/post_20250101_120000_caption.txt",
           FileContent.text "")],
         .error (.keyError "caption")) :=
  (c10_save_post_contract [] "data/generated_posts" "20250101_120000").1 rfl

/-- C4: platform and intent are preserved by every FeedbackLoop run
that returns a post, for any number of rounds and any pattern of
request successes and failures (a round whose critique parses to a
non-dict, or to a dict whose weaknesses or specific_improvements
entries make the improvement prompt raise, crashes the loop and yields
no post at all, so no resulting post escapes the preservation
property).  The image-composition stage never completes on any post:
generate_background calls the undefined _hex_to_color_names before its
`try` block, so the per-post image step of generate_post always raises
AttributeError instead of returning a post (shown here with the
default brand profile, whose visual_identity group is well-formed). -/
theorem c4_preservation_and_image_stage :
    (∀ (post : Obj) (bp : JVal) (pf : String) (n : Nat)
        (oracle : Nat → LlmParse × LlmParse) (q : Obj),
      iterate post bp pf n oracle = .ok q →
      pyGet q "platform" = pyGet post "platform"
      ∧ pyGet q "intent" = pyGet post "intent")
    ∧ (∀ (post : Obj) (pf : String) (render : OvOutcome),
      post_image_step post default_brand_profile pf render
        = .error (.attributeError "_hex_to_color_names")) :=
  ⟨fun post bp pf n oracle q h =>
    ⟨iterate_from_ok_preserves bp pf oracle "platform" (Or.inl rfl) n 0 post q h,
     iterate_from_ok_preserves bp pf oracle "intent" (Or.inr rfl) n 0 post q h⟩,
   fun _ _ _ => rfl⟩

/-- C4, witness: a one-round loop whose critique request fails (default
critique substituted) and whose improve response parses, returning a
post whose platform and intent equal the input's. -/
theorem c4_witness :
    pyGet [("caption", .jstr "v2"), ("platform", .jstr "linkedin"),
        ("intent", .jstr "launch"), ("variation_number", .jnull),
        ("critique_score", .jnum 7)] "platform"
      = pyGet [("platform", .jstr "linkedin"), ("intent", .jstr "launch"),
        ("caption", .jstr "v1")] "platform"
    ∧ pyGet [("caption", .jstr "v2"), ("platform", .jstr "linkedin"),
        ("intent", .jstr "launch"), ("variation_number", .jnull),
        ("critique_score", .jnum 7)] "intent"
      = pyGet [("platform", .jstr "linkedin"), ("intent", .jstr "launch"),
        ("caption", .jstr "v1")] "intent" :=
  c4_preservation_and_image_stage.1
    [("platform", .jstr "linkedin"), ("intent", .jstr "launch"),
      ("caption", .jstr "v1")]
    default_brand_profile "linkedin" 1
    (fun _ => (.raised, .parsed (.jobj [("caption", .jstr "v2")])))
    [("caption", .jstr "v2"), ("platform", .jstr "linkedin"),
      ("intent", .jstr "launch"), ("variation_number", .jnull),
      ("critique_score", .jnum 7)]
    rfl

/-- C6: when the refined caption equals the original caption no image
call is made and no artifact is created; but when the caption differs,
refine_post does not produce a background and an overlay — it raises
AttributeError out of generate_background (undefined
_hex_to_color_names, called before the `try`), creating no artifact at
all, as the concrete changed-caption run shows. -/
theorem c6_conditional_image_regeneration :
    (∀ (bp : JVal) (post : Obj) (fb : String) (llm : LlmParse)
        (render : OvOutcome),
      pyGet (refine_with_feedback post fb bp llm) "caption"
          = pyGet post "caption" →
      refine_post bp post fb llm render
        = .ok (refine_with_feedback post fb bp llm, []))
    ∧ refine_post default_brand_profile [("caption", .jstr "old hook")]
        "make it punchier" (.parsed (.jobj [("caption", .jstr "new hook")]))
        (.ok "20250101_120000")
      = .error (.attributeError "_hex_to_color_names") := by
  constructor
  · intro bp post fb llm render h
    simp [refine_post, h]
  · rfl

/-- C6, witness: a refinement whose request fails leaves the caption
unchanged, so no image call is made and no artifact is created. -/
theorem c6_witness :
    refine_post default_brand_profile [("caption", .jstr "old hook")]
        "make it punchier" .raised .failed
      = .ok ([("caption", .jstr "old hook")], []) :=
  c6_conditional_image_regeneration.1 default_brand_profile
    [("caption", .jstr "old hook")] "make it punchier" .raised .failed rfl

/-- C1, counterexample: a successful generate_variations call asked for
3 variations whose parsed response contains a single post returns a
list of length 1, not 3 — the code never enforces the requested
count. -/
theorem c1_counterexample :
    Except.map List.length
        (generate_variations default_brand_profile "Announce launch" "linkedin"
          none none 3 (.parsed (.jobj [("posts", .jarr [.jobj []])])))
      = .ok 1
    ∧ (1 : Nat) ≠ 3 :=
  ⟨rfl, by decide⟩

/-- C1, amended: for every successful call (prompt built cleanly, the
response parsed to a dict whose posts entry is a list of dicts), the
returned list has the length of the model's posts list — not the
requested count, which only appears in the prompt — and its elements
carry platform and intent equal to the arguments and variation_number
values exactly 1..n in order. -/
theorem c1_amended (bp : JVal) (intent platform : String)
    (constraints rag : Option Obj) (k : Nat) (fs : Obj) (posts : List JVal)
    (objs : List Obj)
    (h1 : gen_prompt_check bp = .ok ())
    (h2 : getKey fs "posts" = some (.jarr posts))
    (h3 : asObjList posts = some objs) :
    generate_variations bp intent platform constraints rag k
        (.parsed (.jobj fs))
      = .ok (attachMeta platform intent objs)
    ∧ (attachMeta platform intent objs).length = posts.length
    ∧ ∀ (j : Nat) (hj : j < (attachMeta platform intent objs).length),
        getKey ((attachMeta platform intent objs).get ⟨j, hj⟩) "platform"
            = some (.jstr platform)
        ∧ getKey ((attachMeta platform intent objs).get ⟨j, hj⟩) "intent"
            = some (.jstr intent)
        ∧ getKey ((attachMeta platform intent objs).get ⟨j, hj⟩)
            "variation_number" = some (.jnum ((j + 1 : Nat) : Rat)) := by
  refine ⟨?_, ?_, ?_⟩
  · unfold generate_variations
    rw [h1]
    simp [h2, h3]
  · unfold attachMeta
    rw [attachMetaFrom_length]
    exact asObjList_length posts objs h3
  · intro j hj
    have := attachMetaFrom_get_keys platform intent 0 objs j hj
    simpa [attachMeta, Nat.zero_add] using this

/-- C1, witness for the amended theorem: two posts in the response,
requested count 3, result of length 2 with metadata attached. -/
theorem c1_witness :
    generate_variations default_brand_profile "Announce launch" "instagram"
        none none 3
        (.parsed (.jobj [("posts",
          .jarr [.jobj [("caption", .jstr "a")], .jobj []])]))
      = .ok (attachMeta "instagram" "Announce launch"
          [[("caption", .jstr "a")], []]) :=
  (c1_amended default_brand_profile "Announce launch" "instagram" none none 3
    [("posts", .jarr [.jobj [("caption", .jstr "a")], .jobj []])]
    [.jobj [("caption", .jstr "a")], .jobj []]
    [[("caption", .jstr "a")], []] rfl rfl rfl).1
